import Mathlib

/-!
Verification of the agent-orchestration core of the `mcp-ecommerce`
repository: a shallow embedding in Lean 4 of the two control loops

* the ReAct Think→Act→Observe engine
  (`src/mcp_react/nodes/__init__.py`, driver in `src/mcp_react/server/main.py`), and
* the SEO Reflexion Actor→Evaluator→Reflector engine
  (`src/mcp_react/reflexion/seo_nodes.py`, `seo_schemas.py`, driver in `seo_graph.py`),

together with proofs and refutations of the specification's claims about
them.  External collaborators (the LLM oracle, the tool lookups) are
modelled as explicit inputs: an oracle answer is an `Except String α`,
an error value standing for a raised exception or a structured-output
validation failure.  Scores (Python floats in `[0, 100]`) are modelled as
rationals; timestamps are omitted (no claim mentions them).
-/

/-! ## Python string primitives

Executable models of the two Python string operations the engines branch
on.  (Lean's own `String.trim`/`String.startsWith` do not reduce in the
kernel, so the embedding defines them structurally over `String.data`.) -/

/-- Python `str.strip()`: remove leading and trailing whitespace. -/
def pyStrip (s : String) : String :=
  ⟨((s.data.dropWhile Char.isWhitespace).reverse.dropWhile Char.isWhitespace).reverse⟩

/-- Whether the first list is a prefix of the second, structurally. -/
def isPrefixCharList : List Char → List Char → Bool
  | [], _ => true
  | _ :: _, [] => false
  | a :: as, b :: bs => a = b && isPrefixCharList as bs

/-- Python `str.startswith(p)`. -/
def pyStartsWith (s p : String) : Bool := isPrefixCharList p.data s.data

/-! ## Reflexion data model (from `seo_schemas.py`) -/

/-- `ProductDescriptionTask` from `seo_schemas.py`: the immutable task input. -/
structure ProductDescriptionTask where
  product_id : String
  original_description : String
  target_keywords : List String
  product_category : String
  price_range : String
  target_audience : String
deriving DecidableEq

/-- `SEOActorState` from `seo_schemas.py`. -/
structure SEOActorState where
  current_description : Option String := none
  attempt_count : ℕ := 0
  target_keywords : List String := []
deriving DecidableEq

/-- One entry of `SEOEvaluatorState.evaluation_history`
(`{attempt, score, feedback, timestamp}`; the timestamp is omitted). -/
structure EvalRecord where
  attempt : ℕ
  score : ℚ
  feedback : String
deriving DecidableEq

/-- `SEOEvaluatorState` from `seo_schemas.py`. -/
structure SEOEvaluatorState where
  last_score : ℚ := 0
  last_feedback : Option String := none
  score_threshold : ℚ := 80
  evaluation_history : List EvalRecord := []
deriving DecidableEq

/-- `SEOMemoryState` from `seo_schemas.py`: the bounded episodic memory. -/
structure SEOMemoryState where
  lessons : List String := []
  memory_capacity : ℕ := 3
deriving DecidableEq

/-- `SEOMemoryState.add_reflections`: Python
`all = self.lessons + new; self.lessons = all[-self.memory_capacity:]`.
Python's negative-index slice `all[-cap:]` keeps the last `cap` elements
when `cap ≥ 1` but the **whole** list when `cap = 0` (since `all[-0:]` is
`all[0:]`); the embedding reproduces that exactly. -/
def SEOMemoryState.add_reflections (m : SEOMemoryState) (new_reflections : List String) :
    SEOMemoryState :=
  let all_reflections := m.lessons ++ new_reflections
  { m with lessons :=
      if m.memory_capacity = 0 then all_reflections
      else all_reflections.drop (all_reflections.length - m.memory_capacity) }

/-- One entry of `SEOTrajectoryState.attempts` (timestamp omitted). -/
structure AttemptRecord where
  attempt : ℕ
  description : String
  score : ℚ
  feedback : String
deriving DecidableEq

/-- `SEOTrajectoryState` from `seo_schemas.py`. -/
structure SEOTrajectoryState where
  attempts : List AttemptRecord := []
deriving DecidableEq

/-- `SEOTrajectoryState.add_attempt`. -/
def SEOTrajectoryState.add_attempt (t : SEOTrajectoryState) (attempt : ℕ)
    (description : String) (score : ℚ) (feedback : String) : SEOTrajectoryState :=
  { t with attempts := t.attempts ++ [⟨attempt, description, score, feedback⟩] }

/-- `SEOGlobalState` from `seo_schemas.py`. -/
structure SEOGlobalState where
  task : ProductDescriptionTask
  max_attempts : ℕ := 3
  min_reflection_cycles : ℕ := 1
  is_done : Bool := false
  current_attempt : ℕ := 0
  completed_reflection_cycles : ℕ := 0
deriving DecidableEq

/-- `SEOReflexionState` from `seo_schemas.py`: the composite run state. -/
structure SEOReflexionState where
  global_state : SEOGlobalState
  actor : SEOActorState := {}
  evaluator : SEOEvaluatorState := {}
  seo_memory : SEOMemoryState := {}
  trajectory : SEOTrajectoryState := {}
deriving DecidableEq

/-! ## Reflexion nodes (from `seo_nodes.py`) -/

/-- The fallback description built in `seo_actor`'s `except` branch: a
deterministic template embedding the product id, the original description,
the comma-joined keyword list and the error text verbatim. -/
def fallbackDescription (task : ProductDescriptionTask) (err : String) : String :=
  "# " ++ task.product_id ++ " - Descripción SEO Mejorada\n\n" ++
    task.original_description ++
    "\n\n**Palabras clave:** " ++ String.intercalate ", " task.target_keywords ++
    "\n\n*Nota: Error en generación: " ++ err ++ "*"

/-- `seo_actor` from `seo_nodes.py`.  The oracle argument is the LLM call:
`.ok d` is a returned description, `.error e` a raised exception.  A blank
response raises `ValueError("LLM retornó descripción vacía")`, caught by the
same `except` branch as an oracle failure. -/
def seo_actor (oracle : Except String String) (state : SEOReflexionState) :
    SEOReflexionState :=
  let new_global_state :=
    { state.global_state with current_attempt := state.global_state.current_attempt + 1 }
  let task := state.global_state.task
  let description :=
    match oracle with
    | .ok d => if pyStrip d = "" then fallbackDescription task "LLM retornó descripción vacía" else d
    | .error e => fallbackDescription task e
  let new_actor :=
    { state.actor with
        current_description := some description
        attempt_count := state.actor.attempt_count + 1
        target_keywords := task.target_keywords }
  { state with global_state := new_global_state, actor := new_actor }

/-- The score/feedback pair `seo_evaluator` computes before updating state:
an empty/blank description scores 0 with a fixed feedback, bypassing the
oracle; an oracle error or an out-of-range total scores 0 with an
error-flavoured feedback. -/
def evalOutcome (oracle : Except String (ℚ × String)) (state : SEOReflexionState) :
    ℚ × String :=
  let description := state.actor.current_description.getD ""
  if pyStrip description = "" then (0, "No hay descripción para evaluar")
  else
    match oracle with
    | .ok (score, feedback) =>
        if 0 ≤ score ∧ score ≤ 100 then (score, feedback)
        else (0, "Error en evaluación SEO: Score SEO fuera de rango: " ++ toString score)
    | .error e => (0, "Error en evaluación SEO: " ++ e)

/-- `seo_evaluator` from `seo_nodes.py`: records the attempt in the
trajectory and the evaluation history, updates `last_score`/`last_feedback`,
and sets `is_done := true` when the score reaches `score_threshold`
(leaving `is_done` untouched otherwise). -/
def seo_evaluator (oracle : Except String (ℚ × String)) (state : SEOReflexionState) :
    SEOReflexionState :=
  let description := state.actor.current_description.getD ""
  let score := (evalOutcome oracle state).1
  let feedback := (evalOutcome oracle state).2
  let new_trajectory :=
    state.trajectory.add_attempt state.global_state.current_attempt description score feedback
  let new_evaluator :=
    { state.evaluator with
        last_score := score
        last_feedback := some feedback
        evaluation_history := state.evaluator.evaluation_history ++
          [⟨state.global_state.current_attempt, score, feedback⟩] }
  let new_global :=
    if state.evaluator.score_threshold ≤ score then
      { state.global_state with is_done := true }
    else state.global_state
  { state with evaluator := new_evaluator, trajectory := new_trajectory,
               global_state := new_global }

/-- The generic fallback lesson of `seo_reflector`'s `except` branch. -/
def fallbackLesson (err : String) : String :=
  "Próxima vez, revisar criterios SEO básicos: " ++ err

/-- The lesson-normalisation step of `seo_reflector`: lessons blank after
trimming are discarded, a lesson lacking the `"Próxima vez"` framing is
prefixed with it. -/
def normalizeLessons (ls : List String) : List String :=
  (ls.filter (fun l => ¬ pyStrip l = "")).map
    (fun l => if pyStartsWith l "Próxima vez" then l else "Próxima vez, " ++ l)

/-- `seo_reflector` from `seo_nodes.py`: obtains 1–3 lessons from the
oracle (an empty list, a list with no valid lesson, or an oracle error all
fall back to a single generic lesson built from the error context), appends
them to the episodic memory and increments `completed_reflection_cycles`. -/
def seo_reflector (oracle : Except String (List String)) (state : SEOReflexionState) :
    SEOReflexionState :=
  let lessons :=
    match oracle with
    | .ok ls =>
        if ls = [] then [fallbackLesson "No se generaron lecciones SEO válidas"]
        else
          let valid_lessons := normalizeLessons ls
          if valid_lessons = [] then [fallbackLesson "Ninguna lección SEO tiene formato válido"]
          else valid_lessons
    | .error e => [fallbackLesson e]
  let new_memory := state.seo_memory.add_reflections lessons
  { state with
      seo_memory := new_memory
      global_state :=
        { state.global_state with
            completed_reflection_cycles :=
              state.global_state.completed_reflection_cycles + 1 } }

/-- The two outcomes of `route_after_seo_eval`
(Python `Literal["reflect", "END"]`). -/
inductive RouteLabel where
  | reflect
  | END
deriving DecidableEq

/-- `route_after_seo_eval` from `seo_nodes.py`: the routing decision taken
after every evaluator step. -/
def route_after_seo_eval (state : SEOReflexionState) : RouteLabel :=
  let gs := state.global_state
  if gs.max_attempts ≤ gs.current_attempt then .END
  else if gs.completed_reflection_cycles < gs.min_reflection_cycles then .reflect
  else if gs.is_done then .END
  else .reflect

/-! ## Reflexion driver (from `seo_graph.py`, `SimpleReflexionGraph.invoke`) -/

/-- The values the driver's `current_node` string variable can take: the
three dispatch labels `"seo_actor"`/`"seo_evaluator"`/`"seo_reflector"`,
the routing answer `"reflect"` (which is **not** one of the dispatch
labels), and the terminal marker `"END"`. -/
inductive RNode where
  | seo_actor
  | seo_evaluator
  | seo_reflector
  | reflect
  | END
deriving DecidableEq

/-- The oracle answers fed to a Reflexion run: one answer per node
invocation.  `act` is indexed by the attempt counter before the actor's
increment, `eval` by the attempt counter at evaluation time, `refl` by the
number of completed reflection cycles before the reflector's increment. -/
structure ROracle where
  act : ℕ → Except String String
  eval : ℕ → Except String (ℚ × String)
  refl : ℕ → Except String (List String)

/-- `SimpleReflexionGraph.invoke` from `seo_graph.py` (the simulated
driver the repository runs when LangGraph is unavailable; the LangGraph
builder is external-library wiring), fuel-indexed:
`while current_node != "END" and current_attempt < max_attempts`, with the
body dispatching on `current_node == "seo_actor" / "seo_evaluator" /
"seo_reflector"`.  After the evaluator the driver stores the routing
answer — `"reflect"` or `"END"` — into `current_node`.  Crucially,
`"reflect"` matches **none** of the three dispatch cases, so once routing
asks for reflection the body does nothing and the `while` spins forever
with an unchanged state (here: the `.reflect` arm recurses on the same
configuration until the fuel runs out); the `"seo_reflector"` dispatch
case exists in the source but no transition ever produces that label.
Exhausted fuel returns the configuration reached so far, so the family
over all fuels covers every point of the (possibly non-terminating) run
at node granularity. -/
def reflexLoop (o : ROracle) : ℕ → RNode → SEOReflexionState → RNode × SEOReflexionState
  | 0, n, s => (n, s)
  | fuel + 1, n, s =>
    if n = RNode.END ∨ s.global_state.max_attempts ≤ s.global_state.current_attempt then
      (n, s)
    else
      match n with
      | .seo_actor =>
          reflexLoop o fuel .seo_evaluator
            (seo_actor (o.act s.global_state.current_attempt) s)
      | .seo_evaluator =>
          let s' := seo_evaluator (o.eval s.global_state.current_attempt) s
          let next : RNode :=
            match route_after_seo_eval s' with
            | .reflect => .reflect
            | .END => .END
          reflexLoop o fuel next s'
      | .seo_reflector =>
          reflexLoop o fuel .seo_actor
            (seo_reflector (o.refl s.global_state.completed_reflection_cycles) s)
      | .reflect => reflexLoop o fuel .reflect s
      | .END => (n, s)

/-! ## ReAct data model (from `schemas/__init__.py`) -/

/-- `ActionType` from `schemas/__init__.py`: the closed six-member action
enumeration. -/
inductive ActionType where
  | search_products
  | get_product_details
  | check_stock
  | get_price_history
  | get_category_products
  | finish
deriving DecidableEq

/-- `ThoughtStep` (timestamp omitted). -/
structure ThoughtStep where
  content : String
  step_number : ℕ
deriving DecidableEq

/-- `ActionStep` (timestamp omitted). -/
structure ActionStep where
  action_type : ActionType
  argument : String
  step_number : ℕ
deriving DecidableEq

/-- `ObservationStep` (timestamp omitted). -/
structure ObservationStep where
  content : String
  source : String
  step_number : ℕ
deriving DecidableEq

/-- `HybrisReActState` from `schemas/__init__.py`.  Of the open-ended
`product_context` dictionary only the `"found_products"` entry is ever read
or written by the engine, so it is embedded as a plain list; products are
kept abstract as strings.  `search_history` is declared in the source but
never touched by any node and is omitted. -/
structure HybrisReActState where
  query : String
  thoughts : List ThoughtStep := []
  actions : List ActionStep := []
  observations : List ObservationStep := []
  current_step_type : Option String := none
  step_counter : ℕ := 0
  max_steps : ℕ := 15
  should_continue : Bool := true
  found_products : List String := []
  final_answer : Option String := none
deriving DecidableEq

/-- `create_initial_state` from `schemas/__init__.py`. -/
def create_initial_state (query : String) (max_steps : ℕ) : HybrisReActState :=
  { query := query, max_steps := max_steps, should_continue := true }

/-! ## ReAct nodes (from `nodes/__init__.py`) -/

/-- The result a tool returns to `observe_node`: Python
`{success, content, products_found}` (with `products_found` present only
for `search_products`, empty otherwise). -/
structure ToolResult where
  success : Bool
  content : String
  products_found : List String := []

/-- `think_node` from `nodes/__init__.py`.  The oracle is the structured
LLM call producing a `ThoughtResponse`; its validator strips the thought
and rejects a blank one, and since `think_node` has no `try`/`except`,
both an oracle failure and a validation failure propagate as errors. -/
def think_node (oracle : Except String String) (state : HybrisReActState) :
    Except String HybrisReActState :=
  match oracle with
  | .error e => .error e
  | .ok t =>
      if pyStrip t = "" then .error "El pensamiento no puede estar vacío."
      else
        let step_num := state.step_counter + 1
        .ok { state with
                thoughts := state.thoughts ++ [⟨pyStrip t, step_num⟩]
                current_step_type := some "think"
                step_counter := step_num }

/-- The argument of the forced `finish` action synthesized by `act_node`
when the step budget is exceeded. -/
def forcedFinishArgument : String :=
  "Límite de pasos alcanzado. No puedo completar la consulta de e-commerce."

/-- `act_node` from `nodes/__init__.py`.  The oracle is the structured
LLM call producing an `ActionResponse` (whose validator rejects an empty
argument); failures propagate, as in `think_node`.  When
`step_counter + 1 > max_steps` and the chosen action is not `finish`, the
node overrides the decision with a forced `finish` and clears
`should_continue` (this branch updates neither `current_step_type` nor
`final_answer`). -/
def act_node (oracle : Except String (ActionType × String)) (state : HybrisReActState) :
    Except String HybrisReActState :=
  match oracle with
  | .error e => .error e
  | .ok (atype, argument) =>
      if argument = "" then .error "El argumento no puede estar vacío."
      else
        let step_num := state.step_counter + 1
        if state.max_steps < step_num ∧ atype ≠ ActionType.finish then
          .ok { state with
                  actions := state.actions ++ [⟨ActionType.finish, forcedFinishArgument, step_num⟩]
                  should_continue := false
                  step_counter := step_num }
        else
          .ok { state with
                  actions := state.actions ++ [⟨atype, argument, step_num⟩]
                  current_step_type := some "act"
                  step_counter := step_num
                  should_continue := atype ≠ ActionType.finish
                  final_answer :=
                    if atype = ActionType.finish then some argument else state.final_answer }

/-- Whether an `act_node` invocation with this oracle answer takes the
forced-termination branch. -/
def actForced (oracle : Except String (ActionType × String)) (state : HybrisReActState) :
    Bool :=
  match oracle with
  | .error _ => false
  | .ok (atype, argument) =>
      ¬ argument = "" ∧ state.max_steps < state.step_counter + 1 ∧ atype ≠ ActionType.finish

/-- The source label `observe_node` attaches to a tool's observation. -/
def observeSource : ActionType → String
  | .search_products => "hybris_catalog"
  | .get_product_details => "hybris_product"
  | .check_stock => "hybris_inventory"
  | .get_price_history => "hybris_pricing"
  | .get_category_products => "hybris_catalog"
  | .finish => "system"

/-- `observe_node` from `nodes/__init__.py`: dispatches the latest action
to its tool (a `finish` action instead yields a synthetic completion
observation), appends the observation with the current step counter
(unchanged), merges found products into the context for a successful
non-empty search, and recomputes `should_continue`.  With no actions yet
it only records the step type. -/
def observe_node (tool : ActionType → String → ToolResult) (state : HybrisReActState) :
    HybrisReActState :=
  match state.actions.getLast? with
  | none => { state with current_step_type := some "observe" }
  | some latest_action =>
      let step_num := state.step_counter
      let observation : ObservationStep :=
        match latest_action.action_type with
        | .finish =>
            ⟨"Consulta de e-commerce completada con respuesta: " ++ latest_action.argument,
              "system", step_num⟩
        | a => ⟨(tool a latest_action.argument).content, observeSource a, step_num⟩
      let found :=
        if latest_action.action_type = ActionType.search_products then
          let result := tool ActionType.search_products latest_action.argument
          if result.success ∧ ¬ result.products_found = [] then
            state.found_products ++ result.products_found
          else state.found_products
        else state.found_products
      { state with
          observations := state.observations ++ [observation]
          current_step_type := some "observe"
          should_continue := latest_action.action_type ≠ ActionType.finish
          found_products := found }

/-! ## ReAct driver (from `server/main.py`) -/

/-- The node labels of the ReAct loop; `stop` is the terminal `"end"`. -/
inductive RANode where
  | think
  | act
  | observe
  | stop
deriving DecidableEq

/-- `should_continue` from `server/main.py`: the continuation decision
taken after every observe step. -/
def should_continue (state : HybrisReActState) : RANode :=
  if state.should_continue = false then .stop
  else if state.max_steps ≤ state.step_counter then .stop
  else .think

/-- The oracle answers and tools fed to a ReAct run: `think` and `act` are
indexed by the step counter at call time (which strictly increases, so
distinct invocations read distinct indices). -/
structure RAOracle where
  think : ℕ → Except String String
  act : ℕ → Except String (ActionType × String)
  tool : ActionType → String → ToolResult

/-- Instrumentation of a ReAct run: how many think-phase and act-phase
invocations it performed, and how often the act phase took the
forced-termination branch. -/
structure RunStats where
  thinks : ℕ
  acts : ℕ
  forced : ℕ
deriving DecidableEq

/-- `SimpleGraph.invoke` from `server/main.py`, fuel-indexed and
instrumented: `while current_node != "end" and step_counter < max_steps`,
running `think_node → act_node → observe_node → should_continue`.  An
uncaught node error aborts the run with that error (the source has no
handler anywhere between the node and the caller of `run_react_agent`).
Exhausted fuel returns the configuration reached so far. -/
def reactRun (o : RAOracle) :
    ℕ → RANode → HybrisReActState → RunStats →
      Except String (RANode × HybrisReActState) × RunStats
  | 0, n, s, st => (.ok (n, s), st)
  | fuel + 1, n, s, st =>
    if n = RANode.stop ∨ s.max_steps ≤ s.step_counter then (.ok (n, s), st)
    else
      match n with
      | .think =>
          let st' := { st with thinks := st.thinks + 1 }
          match think_node (o.think s.step_counter) s with
          | .ok s' => reactRun o fuel .act s' st'
          | .error e => (.error e, st')
      | .act =>
          let st' := { st with
                         acts := st.acts + 1
                         forced := st.forced + (if actForced (o.act s.step_counter) s then 1 else 0) }
          match act_node (o.act s.step_counter) s with
          | .ok s' => reactRun o fuel .observe s' st'
          | .error e => (.error e, st')
      | .observe =>
          let s' := observe_node o.tool s
          reactRun o fuel (should_continue s') s' st
      | .stop => (.ok (n, s), st)

/-! ## Shared sample inputs for concrete runs -/

/-- A concrete task used by the concrete-run witnesses. -/
def sampleTask : ProductDescriptionTask :=
  ⟨"LAPTOP001", "Laptop para gaming", ["laptop gaming"], "Electrónicos", "Medio", "Gamers"⟩

/-- A concrete Reflexion state: fresh run on `sampleTask` with the default
configuration (`max_attempts = 3`, `min_reflection_cycles = 1`,
`score_threshold = 80`). -/
def sampleReflexInit : SEOReflexionState :=
  { global_state := { task := sampleTask } }

/-! ## C1: the routing function's priority order -/

/-- C1.  For every Reflexion state on which the routing function is
invoked, `route_after_seo_eval` returns the first matching outcome in this
priority order: `END` if `current_attempt ≥ max_attempts`; otherwise
`reflect` if `completed_reflection_cycles < min_reflection_cycles`;
otherwise `END` if `is_done`; otherwise `reflect`. -/
theorem route_after_seo_eval_priority (s : SEOReflexionState) :
    (s.global_state.max_attempts ≤ s.global_state.current_attempt →
      route_after_seo_eval s = RouteLabel.END) ∧
    (s.global_state.current_attempt < s.global_state.max_attempts →
      s.global_state.completed_reflection_cycles < s.global_state.min_reflection_cycles →
      route_after_seo_eval s = RouteLabel.reflect) ∧
    (s.global_state.current_attempt < s.global_state.max_attempts →
      s.global_state.min_reflection_cycles ≤ s.global_state.completed_reflection_cycles →
      s.global_state.is_done = true →
      route_after_seo_eval s = RouteLabel.END) ∧
    (s.global_state.current_attempt < s.global_state.max_attempts →
      s.global_state.min_reflection_cycles ≤ s.global_state.completed_reflection_cycles →
      s.global_state.is_done = false →
      route_after_seo_eval s = RouteLabel.reflect) := by
  refine ⟨fun h1 => ?_, fun h1 h2 => ?_, fun h1 h2 h3 => ?_, fun h1 h2 h3 => ?_⟩ <;>
    simp only [route_after_seo_eval] <;> split_ifs <;>
      first | rfl | omega | simp_all

/-- Witness for C1: with `current_attempt = 5 ≥ 3 = max_attempts` the
routing function ends the run. -/
theorem route_after_seo_eval_priority_witness :
    route_after_seo_eval
      { global_state := { task := sampleTask, current_attempt := 5 } } = RouteLabel.END :=
  (route_after_seo_eval_priority
    { global_state := { task := sampleTask, current_attempt := 5 } }).1 (by decide)

/-! ## C2: reflection is mandatory before a routed `END` -/

/-- The evaluator transition touches only `is_done` among the global
counters: attempt and cycle counters and their bounds are preserved. -/
lemma seo_evaluator_global_counters (o : Except String (ℚ × String))
    (s : SEOReflexionState) :
    (seo_evaluator o s).global_state.current_attempt = s.global_state.current_attempt ∧
    (seo_evaluator o s).global_state.max_attempts = s.global_state.max_attempts ∧
    (seo_evaluator o s).global_state.min_reflection_cycles =
      s.global_state.min_reflection_cycles ∧
    (seo_evaluator o s).global_state.completed_reflection_cycles =
      s.global_state.completed_reflection_cycles := by
  simp only [seo_evaluator]
  split <;> simp

/-- Routing can answer `END` while `current_attempt < max_attempts` only
when the mandatory reflection cycles are already completed. -/
lemma route_END_min_cycles (s : SEOReflexionState)
    (ha : s.global_state.current_attempt < s.global_state.max_attempts)
    (hr : route_after_seo_eval s = RouteLabel.END) :
    s.global_state.min_reflection_cycles ≤ s.global_state.completed_reflection_cycles := by
  simp only [route_after_seo_eval] at hr
  split_ifs at hr <;> omega

/-- One unfolding step of `reflexLoop`. -/
lemma reflexLoop_succ (o : ROracle) (fuel : ℕ) (n : RNode) (s : SEOReflexionState) :
    reflexLoop o (fuel + 1) n s =
      if n = RNode.END ∨ s.global_state.max_attempts ≤ s.global_state.current_attempt then
        (n, s)
      else
        match n with
        | .seo_actor =>
            reflexLoop o fuel .seo_evaluator
              (seo_actor (o.act s.global_state.current_attempt) s)
        | .seo_evaluator =>
            let s' := seo_evaluator (o.eval s.global_state.current_attempt) s
            let next : RNode :=
              match route_after_seo_eval s' with
              | .reflect => .reflect
              | .END => .END
            reflexLoop o fuel next s'
        | .seo_reflector =>
            reflexLoop o fuel .seo_actor
              (seo_reflector (o.refl s.global_state.completed_reflection_cycles) s)
        | .reflect => reflexLoop o fuel .reflect s
        | .END => (n, s) := rfl

/-- Invariant of the `SimpleReflexionGraph.invoke` loop: if the current
configuration already satisfies "at `END`, the mandatory cycles are done",
so does the configuration the loop halts in.  (The only transition that
produces `END` is the evaluator's, taken under the loop guard
`current_attempt < max_attempts`, where routing answers `END` only with
the mandatory cycles completed.) -/
lemma reflexLoop_END_invariant (o : ROracle) (fuel : ℕ) :
    ∀ n s,
      (n = RNode.END →
        s.global_state.min_reflection_cycles ≤ s.global_state.completed_reflection_cycles) →
      (reflexLoop o fuel n s).1 = RNode.END →
      (reflexLoop o fuel n s).2.global_state.min_reflection_cycles ≤
        (reflexLoop o fuel n s).2.global_state.completed_reflection_cycles := by
  induction fuel with
  | zero => intro n s hI h; exact hI h
  | succ fuel ih =>
      intro n s hI
      rw [reflexLoop_succ]
      split
      · exact fun h => hI h
      · rename_i hg
        push_neg at hg
        obtain ⟨hne, hlt⟩ := hg
        cases n with
        | seo_actor => exact ih _ _ (by simp)
        | seo_reflector => exact ih _ _ (by simp)
        | reflect => exact ih _ _ (by simp)
        | END => exact absurd rfl hne
        | seo_evaluator =>
            dsimp only
            cases hr : route_after_seo_eval
                (seo_evaluator (o.eval s.global_state.current_attempt) s) with
            | reflect => exact ih _ _ (by simp)
            | END =>
                apply ih
                intro _
                have hpres := seo_evaluator_global_counters
                  (o.eval s.global_state.current_attempt) s
                exact route_END_min_cycles _ (by omega) hr

/-- Once `current_node` holds the routing answer `"reflect"`, no dispatch
case of `SimpleReflexionGraph.invoke` matches it: the loop body does
nothing, the guard keeps holding, and the loop spins forever with the
state unchanged (any amount of fuel returns the same stuck
configuration). -/
lemma reflexLoop_reflect_stuck (o : ROracle) (fuel : ℕ) (s : SEOReflexionState) :
    reflexLoop o fuel RNode.reflect s = (RNode.reflect, s) := by
  induction fuel with
  | zero => rfl
  | succ fuel ih =>
      rw [reflexLoop_succ]
      split
      · rfl
      · exact ih

/-- The actor transition preserves `completed_reflection_cycles`. -/
lemma seo_actor_cycles (o : Except String String) (s : SEOReflexionState) :
    (seo_actor o s).global_state.completed_reflection_cycles =
      s.global_state.completed_reflection_cycles := rfl

/-- From any node other than the (unreachable) `"seo_reflector"` dispatch
label, a `SimpleReflexionGraph.invoke` run never changes
`completed_reflection_cycles`: the reflector — the only phase that
increments it — is never executed, because routing produces the label
`"reflect"`, not `"seo_reflector"`. -/
lemma reflexLoop_cycles_const (o : ROracle) (fuel : ℕ) :
    ∀ n s, n ≠ RNode.seo_reflector →
      (reflexLoop o fuel n s).2.global_state.completed_reflection_cycles =
        s.global_state.completed_reflection_cycles := by
  induction fuel with
  | zero => intro n s hn; rfl
  | succ fuel ih =>
      intro n s hn
      rw [reflexLoop_succ]
      split
      · rfl
      · cases n with
        | seo_actor =>
            have := ih .seo_evaluator
              (seo_actor (o.act s.global_state.current_attempt) s) (by decide)
            rw [seo_actor_cycles] at this
            exact this
        | seo_evaluator =>
            dsimp only
            have hpres := (seo_evaluator_global_counters
              (o.eval s.global_state.current_attempt) s).2.2.2
            cases hr : route_after_seo_eval
                (seo_evaluator (o.eval s.global_state.current_attempt) s) with
            | reflect =>
                rw [ih .reflect (seo_evaluator (o.eval s.global_state.current_attempt) s)
                  (by decide)]
                exact hpres
            | END =>
                rw [ih .END (seo_evaluator (o.eval s.global_state.current_attempt) s)
                  (by decide)]
                exact hpres
        | seo_reflector => exact absurd rfl hn
        | reflect => exact ih _ _ (by decide)
        | END => rfl

/-- A concrete Reflexion oracle whose first attempt already scores 90,
above the default threshold 80. -/
def sampleHighScoreOracle : ROracle :=
  ⟨fun _ => .ok "descripcion nueva", fun _ => .ok (90, "bien"),
    fun _ => .ok ["usar mas keywords"]⟩

/-- Counterexample to C2 as stated: the scenario the claim singles out —
first score 90 at or above the threshold 80, `min_reflection_cycles = 1`,
`max_attempts = 3` — performs **zero** reflector passes: routing answers
`"reflect"`, which matches no dispatch case of
`SimpleReflexionGraph.invoke`, so the run is stuck on that label with
`completed_reflection_cycles = 0 < 1` and never reaches `END`. -/
theorem reflexion_mandatory_reflection_cex :
    (reflexLoop sampleHighScoreOracle 10 RNode.seo_actor sampleReflexInit).1 =
      RNode.reflect ∧
    (reflexLoop sampleHighScoreOracle 10 RNode.seo_actor
        sampleReflexInit).2.global_state.completed_reflection_cycles = 0 ∧
    sampleReflexInit.global_state.min_reflection_cycles = 1 := by
  exact ⟨by decide, by decide, rfl⟩

/-- C2 (amended).  For every Reflexion run driven by
`SimpleReflexionGraph.invoke`: (1) whenever the loop reaches the terminal
`END` node, `completed_reflection_cycles ≥ min_reflection_cycles` does
hold in the final state; but (2) the routing answer `"reflect"` matches
none of the loop's dispatch labels, so the loop spins forever on it with
the state unchanged, and (3) no run starting at the actor ever changes
`completed_reflection_cycles` — the reflector is unreachable and the run
performs no reflector passes at all (so `END` is reachable only from
initial states already satisfying the bound, and a first attempt scoring
at or above the threshold with `min_reflection_cycles ≥ 1` leaves the run
stuck instead of reflecting). -/
theorem reflexion_END_min_cycles_no_reflector (o : ROracle) (fuel : ℕ)
    (s : SEOReflexionState) :
    ((reflexLoop o fuel RNode.seo_actor s).1 = RNode.END →
      (reflexLoop o fuel RNode.seo_actor s).2.global_state.min_reflection_cycles ≤
        (reflexLoop o fuel RNode.seo_actor s).2.global_state.completed_reflection_cycles) ∧
    reflexLoop o fuel RNode.reflect s = (RNode.reflect, s) ∧
    (reflexLoop o fuel RNode.seo_actor s).2.global_state.completed_reflection_cycles =
      s.global_state.completed_reflection_cycles :=
  ⟨fun h => reflexLoop_END_invariant o fuel RNode.seo_actor s (fun hc => by cases hc) h,
   reflexLoop_reflect_stuck o fuel s,
   reflexLoop_cycles_const o fuel RNode.seo_actor s (by decide)⟩

/-- A fresh Reflexion state configured with `min_reflection_cycles = 0`
(the only way the stuck-free path can reach `END`). -/
def sampleReflexInitMinZero : SEOReflexionState :=
  { global_state := { task := sampleTask, min_reflection_cycles := 0 } }

/-- Witness for C2 (amended): with `min_reflection_cycles = 0` the
concrete high-score run does reach `END` (satisfying the bound 0 ≤ 0),
the stuck behaviour of the `"reflect"` label is concrete, and the cycle
counter stays at its initial value 0. -/
theorem reflexion_END_min_cycles_no_reflector_witness :
    (reflexLoop sampleHighScoreOracle 10 RNode.seo_actor sampleReflexInitMinZero).1 =
      RNode.END ∧
    (reflexLoop sampleHighScoreOracle 10 RNode.seo_actor
        sampleReflexInitMinZero).2.global_state.min_reflection_cycles ≤
      (reflexLoop sampleHighScoreOracle 10 RNode.seo_actor
        sampleReflexInitMinZero).2.global_state.completed_reflection_cycles ∧
    reflexLoop sampleHighScoreOracle 10 RNode.reflect sampleReflexInitMinZero =
      (RNode.reflect, sampleReflexInitMinZero) ∧
    (reflexLoop sampleHighScoreOracle 10 RNode.seo_actor
        sampleReflexInitMinZero).2.global_state.completed_reflection_cycles =
      sampleReflexInitMinZero.global_state.completed_reflection_cycles :=
  ⟨by decide,
   (reflexion_END_min_cycles_no_reflector sampleHighScoreOracle 10
      sampleReflexInitMinZero).1 (by decide),
   (reflexion_END_min_cycles_no_reflector sampleHighScoreOracle 10
      sampleReflexInitMinZero).2.1,
   (reflexion_END_min_cycles_no_reflector sampleHighScoreOracle 10
      sampleReflexInitMinZero).2.2⟩

/-! ## C5: `is_done` changes only in the evaluator -/

/-- C5.  `is_done` becomes true only inside the evaluator transition:
the actor and the reflector preserve it (and the routing function does not
modify state at all, returning only a label), while on a not-yet-done state
the evaluator makes it true exactly when the evaluated score reaches
`score_threshold`. -/
theorem is_done_only_in_evaluator
    (oa : Except String String) (oe : Except String (ℚ × String))
    (og : Except String (List String)) (s : SEOReflexionState)
    (h : s.global_state.is_done = false) :
    (seo_actor oa s).global_state.is_done = s.global_state.is_done ∧
    (seo_reflector og s).global_state.is_done = s.global_state.is_done ∧
    ((seo_evaluator oe s).global_state.is_done = true ↔
      s.evaluator.score_threshold ≤ (evalOutcome oe s).1) := by
  refine ⟨by simp [seo_actor], by simp [seo_reflector], ?_⟩
  simp only [seo_evaluator]
  split
  · simp_all
  · simp_all

/-- Witness for C5: the three conjuncts at a concrete fresh state (where
the evaluated score is 0 because no description exists yet, and `is_done`
indeed stays false). -/
theorem is_done_only_in_evaluator_witness :
    (seo_actor (.ok "texto") sampleReflexInit).global_state.is_done
        = sampleReflexInit.global_state.is_done ∧
    (seo_reflector (.ok ["leccion"]) sampleReflexInit).global_state.is_done
        = sampleReflexInit.global_state.is_done ∧
    ((seo_evaluator (.ok (90, "bien")) sampleReflexInit).global_state.is_done = true ↔
      sampleReflexInit.evaluator.score_threshold
        ≤ (evalOutcome (.ok (90, "bien")) sampleReflexInit).1) :=
  is_done_only_in_evaluator (.ok "texto") (.ok (90, "bien")) (.ok ["leccion"])
    sampleReflexInit rfl

/-! ## C7 and C10: the episodic-memory bound -/

/-- `rtake` composes over repeated trimming: retrimming an already trimmed
prefix before an append trims to the same suffix. -/
lemma rtake_append_rtake {α : Type} (cap : ℕ) (l b : List α) :
    (l.rtake cap ++ b).rtake cap = (l ++ b).rtake cap := by
  simp only [List.rtake_eq_reverse_take_reverse, List.reverse_append, List.reverse_reverse]
  rw [List.take_append_eq_append_take, List.take_append_eq_append_take, List.take_take,
    Nat.min_eq_left (Nat.sub_le cap b.reverse.length)]

/-- `rtake` keeps at most `n` elements. -/
lemma length_rtake_le {α : Type} (l : List α) (n : ℕ) : (l.rtake n).length ≤ n := by
  simp only [List.rtake, List.length_drop]
  omega

/-- `rtake` keeps a short list whole. -/
lemma rtake_of_length_le {α : Type} (l : List α) (n : ℕ) (h : l.length ≤ n) :
    l.rtake n = l := by
  simp [List.rtake, Nat.sub_eq_zero_of_le h]

/-- A sequence of reflector memory updates, as iterated
`add_reflections`. -/
def runMemory (m : SEOMemoryState) (batches : List (List String)) : SEOMemoryState :=
  batches.foldl (fun acc b => acc.add_reflections b) m

/-- Invariant of iterated `add_reflections` for capacity at least 1:
the capacity is untouched and the lessons are exactly the last
`capacity`-many of all lessons ever present, in insertion order. -/
lemma runMemory_lessons (batches : List (List String)) :
    ∀ m : SEOMemoryState, 1 ≤ m.memory_capacity →
      m.lessons.length ≤ m.memory_capacity →
      (runMemory m batches).memory_capacity = m.memory_capacity ∧
      (runMemory m batches).lessons =
        (m.lessons ++ batches.flatten).rtake m.memory_capacity ∧
      (runMemory m batches).lessons.length ≤ m.memory_capacity := by
  induction batches with
  | nil =>
      intro m h1 h2
      exact ⟨rfl, by simp [runMemory, rtake_of_length_le _ _ h2], h2⟩
  | cons b rest ih =>
      intro m h1 h2
      have hstep : runMemory m (b :: rest) = runMemory (m.add_reflections b) rest := rfl
      have hcap : (m.add_reflections b).memory_capacity = m.memory_capacity := rfl
      have hles : (m.add_reflections b).lessons = (m.lessons ++ b).rtake m.memory_capacity := by
        simp only [SEOMemoryState.add_reflections, List.rtake]
        rw [if_neg (by omega)]
      have h2' : (m.add_reflections b).lessons.length ≤ (m.add_reflections b).memory_capacity := by
        rw [hles, hcap]
        exact length_rtake_le _ _
      obtain ⟨c1, c2, c3⟩ := ih (m.add_reflections b) (by rw [hcap]; exact h1) h2'
      refine ⟨by rw [hstep, c1, hcap], ?_, by rw [hstep]; rw [hcap] at c3; exact c3⟩
      rw [hstep, c2, hcap, hles, rtake_append_rtake, List.flatten_cons, List.append_assoc]

/-- Counterexample to C7 as stated: with configured capacity 0 a single
reflector update adding one lesson (within the 1–3 range) already makes
the lessons list longer than the capacity. -/
theorem memory_capacity_zero_cex :
    (SEOMemoryState.add_reflections ⟨[], 0⟩ ["a"]).lessons.length = 1 ∧
    ¬ (SEOMemoryState.add_reflections ⟨[], 0⟩ ["a"]).lessons.length ≤
        (SEOMemoryState.add_reflections ⟨[], 0⟩ ["a"]).memory_capacity := by
  decide

/-- C7 (amended: capacity at least 1).  For every sequence of reflector
memory updates, each adding between 1 and 3 lessons, starting from an empty
memory with capacity ≥ 1: the lessons list never exceeds the capacity and
after every update the retained lessons are exactly the most recently added
ones in insertion order (`rtake capacity` of the concatenation of all added
batches). -/
theorem memory_bounded_most_recent (cap : ℕ) (batches : List (List String))
    (hcap : 1 ≤ cap) (_hb : ∀ b ∈ batches, 1 ≤ b.length ∧ b.length ≤ 3) :
    (runMemory ⟨[], cap⟩ batches).lessons.length ≤ cap ∧
    (runMemory ⟨[], cap⟩ batches).lessons = batches.flatten.rtake cap := by
  have h := runMemory_lessons batches ⟨[], cap⟩ hcap (by simp)
  exact ⟨h.2.2, by simpa using h.2.1⟩

/-- Witness for C7: three updates of sizes 2, 2, 1 against capacity 3
retain exactly the last three lessons in order. -/
theorem memory_bounded_most_recent_witness :
    (runMemory ⟨[], 3⟩ [["a", "b"], ["c", "d"], ["e"]]).lessons.length ≤ 3 ∧
    (runMemory ⟨[], 3⟩ [["a", "b"], ["c", "d"], ["e"]]).lessons =
      ([["a", "b"], ["c", "d"], ["e"]] : List (List String)).flatten.rtake 3 :=
  memory_bounded_most_recent 3 [["a", "b"], ["c", "d"], ["e"]] (by decide) (by decide)

/-- C10.  With `memory_capacity = 0`, `add_reflections` retains every
lesson ever added (Python `all[-0:]` is the whole list), so the list grows
without bound; the capacity bound holds only for `memory_capacity ≥ 1`. -/
theorem capacity_zero_unbounded (m : SEOMemoryState) (new_reflections : List String) :
    (m.memory_capacity = 0 →
      (m.add_reflections new_reflections).lessons = m.lessons ++ new_reflections) ∧
    (1 ≤ m.memory_capacity →
      (m.add_reflections new_reflections).lessons.length ≤ m.memory_capacity) := by
  constructor
  · intro h
    simp [SEOMemoryState.add_reflections, h]
  · intro h
    simp only [SEOMemoryState.add_reflections]
    rw [if_neg (by omega)]
    simp only [List.length_drop]
    omega

/-- Witness for C10: capacity 0 keeps all three lessons; capacity 1 keeps
at most one. -/
theorem capacity_zero_unbounded_witness :
    (SEOMemoryState.add_reflections ⟨["a"], 0⟩ ["b", "c"]).lessons = ["a"] ++ ["b", "c"] ∧
    (SEOMemoryState.add_reflections ⟨["a"], 1⟩ ["b", "c"]).lessons.length ≤ 1 :=
  ⟨(capacity_zero_unbounded ⟨["a"], 0⟩ ["b", "c"]).1 rfl,
   (capacity_zero_unbounded ⟨["a"], 1⟩ ["b", "c"]).2 (by decide)⟩

/-! ## C9: the forced-finish branch is unreachable under the loop driver -/

/-- One unfolding step of `reactRun`. -/
lemma reactRun_succ (o : RAOracle) (fuel : ℕ) (n : RANode) (s : HybrisReActState)
    (st : RunStats) :
    reactRun o (fuel + 1) n s st =
      if n = RANode.stop ∨ s.max_steps ≤ s.step_counter then (.ok (n, s), st)
      else
        match n with
        | .think =>
            let st' := { st with thinks := st.thinks + 1 }
            match think_node (o.think s.step_counter) s with
            | .ok s' => reactRun o fuel .act s' st'
            | .error e => (.error e, st')
        | .act =>
            let st' := { st with
                           acts := st.acts + 1
                           forced := st.forced +
                             (if actForced (o.act s.step_counter) s then 1 else 0) }
            match act_node (o.act s.step_counter) s with
            | .ok s' => reactRun o fuel .observe s' st'
            | .error e => (.error e, st')
        | .observe =>
            let s' := observe_node o.tool s
            reactRun o fuel (should_continue s') s' st
        | .stop => (.ok (n, s), st) := rfl

/-- When the loop guard `step_counter < max_steps` holds at an act-phase
entry, the act node's step number `step_counter + 1` cannot exceed
`max_steps`, so the forced branch's condition is false. -/
lemma actForced_eq_false (o : Except String (ActionType × String))
    (s : HybrisReActState) (h : s.step_counter < s.max_steps) : actForced o s = false := by
  unfold actForced
  cases o with
  | error e => rfl
  | ok p =>
      obtain ⟨atype, argument⟩ := p
      simp only [decide_eq_false_iff_not]
      rintro ⟨-, h2, -⟩
      omega

/-- C9.  Under the `SimpleGraph.invoke` loop driver, the act phase runs
only when `step_counter < max_steps` held at the top of the loop iteration,
so the condition `step_counter + 1 > max_steps` guarding the
termination-forcing branch of `act_node` never holds: for every run, from
any configuration, the count of forced-branch activations never grows. -/
theorem forced_branch_unreachable (o : RAOracle) (fuel : ℕ) :
    ∀ (n : RANode) (s : HybrisReActState) (st : RunStats),
      ((reactRun o fuel n s st).2).forced = st.forced := by
  induction fuel with
  | zero => intro n s st; rfl
  | succ fuel ih =>
      intro n s st
      rw [reactRun_succ]
      split
      · rfl
      · rename_i hg
        push_neg at hg
        obtain ⟨hne, hlt⟩ := hg
        cases n with
        | stop => exact absurd rfl hne
        | observe => exact ih _ _ _
        | think =>
            dsimp only
            cases think_node (o.think s.step_counter) s with
            | ok s' => exact ih _ _ _
            | error e => rfl
        | act =>
            dsimp only
            rw [actForced_eq_false (o.act s.step_counter) s hlt]
            cases act_node (o.act s.step_counter) s with
            | ok s' => simpa using ih .observe s' _
            | error e => simp

/-! ## C4: what `step_counter` counts -/

/-- A successful think step advances `step_counter` by exactly one. -/
lemma think_node_counter (o : Except String String) (s s' : HybrisReActState)
    (h : think_node o s = .ok s') : s'.step_counter = s.step_counter + 1 := by
  cases o with
  | error e => simp [think_node] at h
  | ok t =>
      simp only [think_node] at h
      split at h
      · simp at h
      · simp only [Except.ok.injEq] at h
        subst h
        rfl

/-- A successful act step advances `step_counter` by exactly one (in both
the forced and the normal branch). -/
lemma act_node_counter (o : Except String (ActionType × String)) (s s' : HybrisReActState)
    (h : act_node o s = .ok s') : s'.step_counter = s.step_counter + 1 := by
  cases o with
  | error e => simp [act_node] at h
  | ok p =>
      obtain ⟨atype, argument⟩ := p
      simp only [act_node] at h
      split at h
      · simp at h
      · split at h <;>
          · simp only [Except.ok.injEq] at h
            subst h
            rfl

/-- The observe step leaves `step_counter` unchanged. -/
lemma observe_node_counter (tool : ActionType → String → ToolResult)
    (s : HybrisReActState) : (observe_node tool s).step_counter = s.step_counter := by
  unfold observe_node
  cases s.actions.getLast? with
  | none => rfl
  | some a => rfl

/-- Bookkeeping invariant of the `SimpleGraph.invoke` loop: across any
successfully completed stretch of the run, the growth of `step_counter`
equals the number of think-phase invocations plus the number of act-phase
invocations performed in that stretch. -/
lemma reactRun_counter (o : RAOracle) (fuel : ℕ) :
    ∀ (n : RANode) (s : HybrisReActState) (st : RunStats) (n' : RANode)
      (s' : HybrisReActState),
      (reactRun o fuel n s st).1 = .ok (n', s') →
      s'.step_counter + st.thinks + st.acts =
        s.step_counter + ((reactRun o fuel n s st).2).thinks +
          ((reactRun o fuel n s st).2).acts := by
  induction fuel with
  | zero =>
      intro n s st n' s' h
      simp only [reactRun, Except.ok.injEq, Prod.mk.injEq] at h
      obtain ⟨-, rfl⟩ := h
      rfl
  | succ fuel ih =>
      intro n s st n' s' h
      rw [reactRun_succ] at h ⊢
      split at h
      · rw [if_pos (by assumption)]
        simp only [Except.ok.injEq, Prod.mk.injEq] at h
        obtain ⟨-, rfl⟩ := h
        rfl
      · rw [if_neg (by assumption)]
        rename_i hg
        cases n with
        | stop => exact absurd rfl (by push_neg at hg; exact hg.1)
        | observe =>
            dsimp only at h ⊢
            have hc := observe_node_counter o.tool s
            have := ih (should_continue (observe_node o.tool s)) (observe_node o.tool s)
              st n' s' h
            omega
        | think =>
            dsimp only at h ⊢
            revert h
            cases hres : think_node (o.think s.step_counter) s with
            | error e => intro h; simp at h
            | ok s1 =>
                intro h
                dsimp only at h ⊢
                have hc := think_node_counter _ _ _ hres
                have := ih .act s1 ⟨st.thinks + 1, st.acts, st.forced⟩ n' s' h
                dsimp only at this
                omega
        | act =>
            dsimp only at h ⊢
            revert h
            cases hres : act_node (o.act s.step_counter) s with
            | error e => intro h; simp at h
            | ok s1 =>
                intro h
                dsimp only at h ⊢
                have hc := act_node_counter _ _ _ hres
                have := ih .observe s1
                  ⟨st.thinks, st.acts + 1,
                    st.forced + (if actForced (o.act s.step_counter) s then 1 else 0)⟩ n' s' h
                dsimp only at this
                omega

/-- C4 (amended).  For every ReAct run driven by `SimpleGraph.invoke` that
completes without a propagated error, the final `step_counter` equals the
number of think-phase invocations **plus** the number of act-phase
invocations performed (each of the two phases advances the counter by one;
observe leaves it alone) — not the act-phase count alone. -/
theorem step_counter_counts_think_and_act (o : RAOracle) (fuel : ℕ)
    (s : HybrisReActState) (n' : RANode) (s' : HybrisReActState)
    (h : (reactRun o fuel RANode.think s ⟨0, 0, 0⟩).1 = .ok (n', s')) :
    s'.step_counter =
      s.step_counter + ((reactRun o fuel RANode.think s ⟨0, 0, 0⟩).2).thinks +
        ((reactRun o fuel RANode.think s ⟨0, 0, 0⟩).2).acts := by
  have := reactRun_counter o fuel RANode.think s ⟨0, 0, 0⟩ n' s' h
  simpa using this

/-- A fresh ReAct state for the concrete runs (`max_steps = 15`, as in
`run_react_agent`). -/
def sampleReactState : HybrisReActState := create_initial_state "consulta" 15

/-- A concrete ReAct oracle that answers one thought and then decides
`finish` immediately. -/
def sampleFinishOracle : RAOracle :=
  ⟨fun _ => .ok "pienso", fun _ => .ok (ActionType.finish, "respuesta"),
    fun _ _ => ⟨true, "ok", []⟩⟩

/-- The state in which the concrete `sampleFinishOracle` run halts. -/
def sampleReactFinal : HybrisReActState :=
  { query := "consulta"
    thoughts := [⟨"pienso", 1⟩]
    actions := [⟨ActionType.finish, "respuesta", 2⟩]
    observations := [⟨"Consulta de e-commerce completada con respuesta: respuesta", "system", 2⟩]
    current_step_type := some "observe"
    step_counter := 2
    max_steps := 15
    should_continue := false
    found_products := []
    final_answer := some "respuesta" }

/-- Counterexample to C4 as stated: in this completed concrete run the
final `step_counter` is 2 although only one act-phase invocation happened
(the think phase also increments the counter). -/
theorem step_counter_not_act_count_cex :
    (reactRun sampleFinishOracle 10 RANode.think sampleReactState ⟨0, 0, 0⟩).1 =
      .ok (RANode.stop, sampleReactFinal) ∧
    ((reactRun sampleFinishOracle 10 RANode.think sampleReactState ⟨0, 0, 0⟩).2).acts = 1 ∧
    sampleReactFinal.step_counter = 2 ∧
    ¬ sampleReactFinal.step_counter =
        ((reactRun sampleFinishOracle 10 RANode.think sampleReactState ⟨0, 0, 0⟩).2).acts := by
  refine ⟨rfl, rfl, rfl, by decide⟩

/-- Witness for C4 (amended): on the same concrete run, 2 = 0 + 1 + 1. -/
theorem step_counter_counts_think_and_act_witness :
    sampleReactFinal.step_counter =
      sampleReactState.step_counter +
        ((reactRun sampleFinishOracle 10 RANode.think sampleReactState ⟨0, 0, 0⟩).2).thinks +
        ((reactRun sampleFinishOracle 10 RANode.think sampleReactState ⟨0, 0, 0⟩).2).acts :=
  step_counter_counts_think_and_act sampleFinishOracle 10 sampleReactState RANode.stop
    sampleReactFinal rfl

/-! ## C3: the forced-termination behaviour of the act phase -/

/-- The state produced by `act_node`'s forced-termination branch. -/
def forcedActState (s : HybrisReActState) : HybrisReActState :=
  { s with
      actions := s.actions ++ [⟨ActionType.finish, forcedFinishArgument, s.step_counter + 1⟩]
      should_continue := false
      step_counter := s.step_counter + 1 }

/-- C3.  Whenever the act phase runs with `step_counter` exceeding
`max_steps` and the oracle's chosen action is not `finish` (and its
argument passes validation), the engine overrides the decision: it
appends a synthesized `finish` action with the budget-exhausted argument,
sets `should_continue` to false, and the driver loop then halts at once —
the observe phase is skipped (observations unchanged) and the run
transitions directly to its terminal configuration. -/
theorem act_forced_termination (o : RAOracle) (fuel : ℕ) (st : RunStats)
    (s : HybrisReActState) (atype : ActionType) (argument : String)
    (h1 : s.max_steps < s.step_counter) (h2 : atype ≠ ActionType.finish)
    (h3 : ¬ argument = "") :
    act_node (.ok (atype, argument)) s = .ok (forcedActState s) ∧
    (forcedActState s).should_continue = false ∧
    (forcedActState s).observations = s.observations ∧
    reactRun o fuel RANode.observe (forcedActState s) st =
      (.ok (RANode.observe, forcedActState s), st) := by
  refine ⟨?_, rfl, rfl, ?_⟩
  · simp only [act_node]
    rw [if_neg h3, if_pos ⟨by omega, h2⟩]
    rfl
  · cases fuel with
    | zero => rfl
    | succ fuel =>
        rw [reactRun_succ, if_pos (Or.inr ?_)]
        show s.max_steps ≤ s.step_counter + 1
        omega

/-- A ReAct state whose step counter already exceeds the budget. -/
def sampleOverBudgetState : HybrisReActState :=
  { query := "consulta", step_counter := 16, max_steps := 15 }

/-- Witness for C3: with `step_counter = 16 > 15 = max_steps` and a
non-`finish` oracle decision, the forced `finish` is synthesized, the
continue flag clears, and the loop halts without observing. -/
theorem act_forced_termination_witness :
    act_node (.ok (ActionType.search_products, "laptop")) sampleOverBudgetState =
      .ok (forcedActState sampleOverBudgetState) ∧
    (forcedActState sampleOverBudgetState).should_continue = false ∧
    (forcedActState sampleOverBudgetState).observations = sampleOverBudgetState.observations ∧
    reactRun sampleFinishOracle 5 RANode.observe (forcedActState sampleOverBudgetState)
        ⟨0, 0, 0⟩ =
      (.ok (RANode.observe, forcedActState sampleOverBudgetState), ⟨0, 0, 0⟩) :=
  act_forced_termination sampleFinishOracle 5 ⟨0, 0, 0⟩ sampleOverBudgetState
    ActionType.search_products "laptop" (by decide) (by decide) (by decide)

/-! ## C6: error handling in the ReAct think/act phases -/

/-- C6 (amended).  An oracle-call failure (or malformed structured
response) in the think or act phase is not handled anywhere in the ReAct
engine: the error propagates out of the run driver to the caller, so the
run aborts instead of returning a structured result state.  (Only the
Reflexion phases catch oracle failures locally.) -/
theorem react_oracle_error_propagates (o : RAOracle) (fuel : ℕ)
    (s : HybrisReActState) (st : RunStats) (e : String)
    (hguard : s.step_counter < s.max_steps) :
    (o.think s.step_counter = .error e →
      (reactRun o (fuel + 1) RANode.think s st).1 = .error e) ∧
    (o.act s.step_counter = .error e →
      (reactRun o (fuel + 1) RANode.act s st).1 = .error e) := by
  constructor <;> intro he <;>
    · rw [reactRun_succ, if_neg (by rintro (h' | h') <;>
        first | exact absurd h' (by decide) | omega)]
      rw [he]
      rfl

/-- A concrete ReAct oracle whose think call always fails. -/
def sampleFailingOracle : RAOracle :=
  ⟨fun _ => .error "fallo de red", fun _ => .ok (ActionType.finish, "x"),
    fun _ _ => ⟨true, "ok", []⟩⟩

/-- Counterexample to C6 as stated: on this concrete run the first think
call's oracle failure escapes the whole run — the driver's result is the
propagated error, not a structured result object. -/
theorem react_oracle_error_cex :
    (reactRun sampleFailingOracle 10 RANode.think sampleReactState ⟨0, 0, 0⟩).1 =
      .error "fallo de red" := rfl

/-- Witness for C6 (amended): the propagation theorem applied to the same
concrete failing run, in both phases. -/
theorem react_oracle_error_propagates_witness :
    (reactRun sampleFailingOracle 10 RANode.think sampleReactState ⟨0, 0, 0⟩).1 =
      .error "fallo de red" ∧
    (reactRun (⟨fun _ => .ok "pienso", fun _ => .error "fallo de red", fun _ _ => ⟨true, "ok", []⟩⟩ : RAOracle)
        10 RANode.act sampleReactState ⟨0, 0, 0⟩).1 = .error "fallo de red" :=
  ⟨(react_oracle_error_propagates sampleFailingOracle 9 sampleReactState ⟨0, 0, 0⟩
      "fallo de red" (by decide)).1 rfl,
   (react_oracle_error_propagates
      ⟨fun _ => .ok "pienso", fun _ => .error "fallo de red", fun _ _ => ⟨true, "ok", []⟩⟩
      9 sampleReactState ⟨0, 0, 0⟩ "fallo de red" (by decide)).2 rfl⟩

/-! ## C8: actor fallback on oracle failure -/

/-- String append concatenates the underlying character data. -/
lemma data_append (a b : String) : (a ++ b).data = a.data ++ b.data := rfl

/-- The fallback template contains, as character-level infixes, the
task's original text, the comma-joined keyword list, and the error text
verbatim — for any error text. -/
lemma fallbackDescription_contains (task : ProductDescriptionTask) (err : String) :
    task.original_description.data <:+: (fallbackDescription task err).data ∧
    (String.intercalate ", " task.target_keywords).data <:+:
      (fallbackDescription task err).data ∧
    err.data <:+: (fallbackDescription task err).data := by
  refine ⟨⟨("# " ++ task.product_id ++ " - Descripción SEO Mejorada\n\n").data,
      ("\n\n**Palabras clave:** " ++ String.intercalate ", " task.target_keywords ++
        "\n\n*Nota: Error en generación: " ++ err ++ "*").data, ?_⟩,
    ⟨("# " ++ task.product_id ++ " - Descripción SEO Mejorada\n\n" ++
        task.original_description ++ "\n\n**Palabras clave:** ").data,
      ("\n\n*Nota: Error en generación: " ++ err ++ "*").data, ?_⟩,
    ⟨("# " ++ task.product_id ++ " - Descripción SEO Mejorada\n\n" ++
        task.original_description ++ "\n\n**Palabras clave:** " ++
        String.intercalate ", " task.target_keywords ++
        "\n\n*Nota: Error en generación: ").data, ("*" : String).data, ?_⟩⟩ <;>
    simp [fallbackDescription, data_append, List.append_assoc]

/-- C8.  When the actor's oracle call fails — it raises (error `e`) or
returns an empty/blank artifact `d` (which makes `seo_actor` itself raise
`ValueError("LLM retornó descripción vacía")`, caught by the same
`except`) — the actor does not abort the run: `current_description`
becomes exactly the deterministic template embedding the task's original
text, its comma-joined keyword list and the error text verbatim (the
raised message in the blank case), and the driver always carries the
actor's resulting state straight into the evaluator. -/
theorem actor_fallback_on_error (o : ROracle) (fuel : ℕ) (s : SEOReflexionState)
    (e d : String)
    (hguard : s.global_state.current_attempt < s.global_state.max_attempts)
    (hblank : pyStrip d = "") :
    (seo_actor (Except.error e) s).actor.current_description =
      some (fallbackDescription s.global_state.task e) ∧
    (seo_actor (Except.ok d) s).actor.current_description =
      some (fallbackDescription s.global_state.task "LLM retornó descripción vacía") ∧
    (s.global_state.task.original_description.data <:+:
      (fallbackDescription s.global_state.task e).data ∧
     (String.intercalate ", " s.global_state.task.target_keywords).data <:+:
      (fallbackDescription s.global_state.task e).data ∧
     e.data <:+: (fallbackDescription s.global_state.task e).data) ∧
    (s.global_state.task.original_description.data <:+:
      (fallbackDescription s.global_state.task "LLM retornó descripción vacía").data ∧
     (String.intercalate ", " s.global_state.task.target_keywords).data <:+:
      (fallbackDescription s.global_state.task "LLM retornó descripción vacía").data ∧
     ("LLM retornó descripción vacía" : String).data <:+:
      (fallbackDescription s.global_state.task "LLM retornó descripción vacía").data) ∧
    reflexLoop o (fuel + 1) RNode.seo_actor s =
      reflexLoop o fuel RNode.seo_evaluator
        (seo_actor (o.act s.global_state.current_attempt) s) := by
  refine ⟨by simp [seo_actor], by simp [seo_actor, hblank],
    fallbackDescription_contains s.global_state.task e,
    fallbackDescription_contains s.global_state.task "LLM retornó descripción vacía", ?_⟩
  rw [reflexLoop_succ,
    if_neg (by rintro (h' | h') <;> first | exact absurd h' (by decide) | omega)]

/-- A concrete Reflexion oracle whose generation call always fails. -/
def sampleErrorOracle : ROracle :=
  ⟨fun _ => .error "sin conexion", fun _ => .ok (50, "regular"), fun _ => .ok ["mejorar"]⟩

/-- Witness for C8: the fallback behaviour on a concrete fresh run, for a
raising oracle ("sin conexion") and for a blank artifact (`" "`). -/
theorem actor_fallback_on_error_witness :
    (seo_actor (Except.error "sin conexion") sampleReflexInit).actor.current_description =
      some (fallbackDescription sampleReflexInit.global_state.task "sin conexion") ∧
    (seo_actor (Except.ok " ") sampleReflexInit).actor.current_description =
      some (fallbackDescription sampleReflexInit.global_state.task
        "LLM retornó descripción vacía") ∧
    (sampleReflexInit.global_state.task.original_description.data <:+:
      (fallbackDescription sampleReflexInit.global_state.task "sin conexion").data ∧
     (String.intercalate ", " sampleReflexInit.global_state.task.target_keywords).data <:+:
      (fallbackDescription sampleReflexInit.global_state.task "sin conexion").data ∧
     ("sin conexion" : String).data <:+:
      (fallbackDescription sampleReflexInit.global_state.task "sin conexion").data) ∧
    (sampleReflexInit.global_state.task.original_description.data <:+:
      (fallbackDescription sampleReflexInit.global_state.task
        "LLM retornó descripción vacía").data ∧
     (String.intercalate ", " sampleReflexInit.global_state.task.target_keywords).data <:+:
      (fallbackDescription sampleReflexInit.global_state.task
        "LLM retornó descripción vacía").data ∧
     ("LLM retornó descripción vacía" : String).data <:+:
      (fallbackDescription sampleReflexInit.global_state.task
        "LLM retornó descripción vacía").data) ∧
    reflexLoop sampleErrorOracle 8 RNode.seo_actor sampleReflexInit =
      reflexLoop sampleErrorOracle 7 RNode.seo_evaluator
        (seo_actor (sampleErrorOracle.act 0) sampleReflexInit) :=
  actor_fallback_on_error sampleErrorOracle 7 sampleReflexInit "sin conexion" " "
    (by decide) (by decide)
